import Mathlib

/-!
# Invite-join admission pipeline: a shallow embedding

This file embeds the invite-join route of the repository
(`crates/delta/src/routes/invites/invite_join.rs`, function `join`) into
Lean and proves properties of it.

The route handler itself is translated directly from the source.  The
store collaborators it calls (`can_acquire_server`, `Reference::as_invite`,
`Database::fetch_server` / `fetch_channel` / `fetch_users`,
`Member::create`, `Channel::add_user_to_group`, `User::into_known`) are not
part of the shown source tree; they are modelled as oracle fields of a
`Db` structure, or — where the claims depend on their behaviour — defined
from the specification's words (each such definition carries a doc comment
starting with `Modelled from the spec:`).

Side effects are made observable through an explicit trace: `join` returns
both its result and the ordered list of store calls it issued
(`StoreEvent`), so that "no store mutation occurred" and "step X runs
before step Y" become provable statements.  Rust's `Result<T>` is embedded
as `Except Error T`; the handler's overall outcome distinguishes normal
success, a propagated error, and the `unreachable!()` panic of the group
branch (`Outcome.panicked`), so that "the panic branch is never taken"
becomes "`join` never returns `Outcome.panicked`" — a Rust panic is not an
`Err` value, so no store answer can produce it.  Response-model conversion
(`.into()` to the
`v0` wire models) is treated as the identity, so response fields carry the
domain entities themselves.
-/

/-- Error kinds surfaced by the pipeline.  `quotaExceeded` stands for the
source-specific over-quota error returned by the server-membership
capacity check (naming abstracted, one distinct condition). -/
inductive Error where
  | isBot
  | notFound
  | quotaExceeded
  | alreadyInGroup
  | internalError
  | storeUnavailable
  deriving DecidableEq, Repr

/-- The acting user.  `bot` mirrors the source's `Option`-typed `bot`
field: the handler only tests `user.bot.is_some()`. -/
structure User where
  id : String
  bot : Option String
  deriving DecidableEq, Repr

/-- An invite, tagged union over the two variants of the source `Invite`
enum that the handler matches on: `Server { server, .. }` (with an
optional channel field unused by the handler) and
`Group { channel, creator, .. }`. -/
inductive Invite where
  | server (serverId : String) (creatorId : String) (channelId : Option String)
  | group (channelId : String) (creatorId : String)
  deriving DecidableEq, Repr

/-- A server entity.  Only identity matters to the claims. -/
structure Server where
  id : String
  deriving DecidableEq, Repr

/-- A channel entity, reduced to the distinction the handler's
`if let Channel::Group { recipients, .. }` match observes: a group channel
carrying its recipient list, or any non-group channel. -/
inductive Channel where
  | group (id : String) (recipients : List String)
  | nonGroup (id : String)
  deriving DecidableEq, Repr

/-- Modelled from the spec: a `RelativeUserView` is a user entity rebound
to convey only what the acting user is permitted to know, constructed per
response by the pure projector `project(user, actor)` (§4.4).  The model
keeps the projected user's identity and the actor it is scoped to. -/
structure RelativeUserView where
  userId : String
  actorId : String
  deriving DecidableEq, Repr

/-- Modelled from the spec: `User::into_known(&actor)` — the pure
Relative-View Projector, `project(user, actor) -> RelativeUserView`
(§4.4; the source awaits it per user, but it performs no store call
relevant to the claims). -/
def User.into_known (u : User) (actor : User) : RelativeUserView :=
  { userId := u.id, actorId := actor.id }

/-- The response union of the route: `InviteJoinResponse::Server` carries
the channels returned by member creation and the fetched server;
`InviteJoinResponse::Group` carries the projected users and the mutated
channel.  Conversion into the `v0` wire models is treated as identity. -/
inductive InviteJoinResponse where
  | server (channels : List Channel) (server : Server)
  | group (users : List RelativeUserView) (channel : Channel)
  deriving DecidableEq, Repr

/-- One store call issued by the handler, with its arguments, in the order
the handler issues them.  `createMember` and `addUserToGroup` are the
store mutations; the rest are reads. -/
inductive StoreEvent where
  | canAcquireServer (userId : String)
  | asInvite (refId : String)
  | fetchServer (serverId : String)
  | createMember (serverId : String) (userId : String) (defaultChannel : Option String)
  | fetchChannel (channelId : String)
  | addUserToGroup (channelId : String) (userId : String) (creatorId : String)
  | fetchUsers (ids : List String)
  deriving DecidableEq, Repr

/-- Whether a store call is a write (mutation). -/
def StoreEvent.isWrite : StoreEvent → Bool
  | .createMember _ _ _ => true
  | .addUserToGroup _ _ _ => true
  | _ => false

/-- The store collaborators, as oracles: each field gives the answer the
store returns to one kind of call.  The handler is proved correct for
every oracle, i.e. for every possible sequence of store answers. -/
structure Db where
  can_acquire_server : User → Except Error Unit
  lookup_invite : String → Except Error Invite
  fetch_server : String → Except Error Server
  member_create : Server → User → Option String → Except Error (List Channel)
  fetch_channel : String → Except Error Channel
  fetch_user : String → Except Error User

/-- An unresolved reference: the opaque id string taken from the URL
parameter. -/
structure Reference where
  id : String
  deriving DecidableEq, Repr

/-- Modelled from the spec: `Reference::as_invite` — the Reference
Resolver, `resolve(id) -> Invite | Error` (§4.1): it delegates to the
store's single polymorphic invite lookup and forwards the tagged result;
it has no side effects, so the store comes back unchanged. -/
def Reference.as_invite (r : Reference) (db : Db) : Except Error Invite × Db :=
  (db.lookup_invite r.id, db)

/-- Modelled from the spec: `Channel::add_user_to_group(user, creator)` —
group membership "mutates the Channel entity's recipient list in place
(append semantics; must reject if actor already present)" (§3), and a
non-group channel is "surfaced as an internal-invariant failure if it
occurs, never silently coerced" (§4.3 Group step 1).  The creator id is
attribution context owned by the store and does not affect the resulting
recipient list. -/
def Channel.add_user_to_group (c : Channel) (user : User) (_creatorId : String) :
    Except Error Channel :=
  match c with
  | .group cid recipients =>
      if user.id ∈ recipients then .error .alreadyInGroup
      else .ok (.group cid (recipients ++ [user.id]))
  | .nonGroup _ => .error .internalError

/-- Modelled from the spec: `Database::fetch_users(ids)` — the batched
fetch `fetchUsers(ids) -> User[]` (§6), specified here to fail on the
first missing id (the spec leaves "omitted or error" to the collaborator)
and to return the found users in the order of the requested ids (§5: the
response list's order matches the recipient list's order as read back). -/
def Db.fetch_users (db : Db) (ids : List String) : Except Error (List User) :=
  match ids with
  | [] => .ok []
  | i :: rest =>
    match db.fetch_user i with
    | .error e => .error e
    | .ok u =>
      match db.fetch_users rest with
      | .error e => .error e
      | .ok us => .ok (u :: us)

/-- The overall outcome of the handler: a successful response, an error
propagated by `?`, or the `unreachable!()` panic.  A Rust panic is not an
`Err` value, so `panicked` is kept apart from `failure`: no store answer
can inject it. -/
inductive Outcome where
  | success (r : InviteJoinResponse)
  | failure (e : Error)
  | panicked
  deriving DecidableEq, Repr

/-- Whether an outcome is the `unreachable!()` panic. -/
def Outcome.isPanicked : Outcome → Bool
  | .panicked => true
  | _ => false

/-- The variant dispatch of the handler: the `match &invite { ... }` block
of `join` (invite_join.rs lines 24-53), translated arm by arm.  Returns
the handler's result together with the trace of store calls the dispatch
issues.  `join_all` over the pure projector is order-preserving, hence the
`List.map`.  The `unreachable!()` arm becomes `Outcome.panicked`. -/
def join_invite (db : Db) (user : User) (invite : Invite) :
    Outcome × List StoreEvent :=
  match invite with
  | .server serverId _creator _channelId =>
    match db.fetch_server serverId with
    | .error e => (.failure e, [.fetchServer serverId])
    | .ok server =>
      match db.member_create server user none with
      | .error e =>
          (.failure e, [.fetchServer serverId, .createMember serverId user.id none])
      | .ok channels =>
          (.success (.server channels server),
           [.fetchServer serverId, .createMember serverId user.id none])
  | .group channelId creator =>
    match db.fetch_channel channelId with
    | .error e => (.failure e, [.fetchChannel channelId])
    | .ok ch0 =>
      match ch0.add_user_to_group user creator with
      | .error e =>
          (.failure e,
           [.fetchChannel channelId, .addUserToGroup channelId user.id creator])
      | .ok channel =>
        match channel with
        | .group cid recipients =>
          match db.fetch_users recipients with
          | .error e =>
              (.failure e,
               [.fetchChannel channelId, .addUserToGroup channelId user.id creator,
                .fetchUsers recipients])
          | .ok users =>
              (.success (.group (users.map (fun u => u.into_known user))
                      (.group cid recipients)),
               [.fetchChannel channelId, .addUserToGroup channelId user.id creator,
                .fetchUsers recipients])
        | .nonGroup _ =>
          (.panicked,
           [.fetchChannel channelId, .addUserToGroup channelId user.id creator])

/-- The route handler `join` (invite_join.rs lines 12-54), translated
statement by statement: the bot check, then `user.can_acquire_server(db)?`,
then `target.as_invite(db)?`, then the variant dispatch.  Returns the
result and the ordered trace of store calls issued. -/
def join (db : Db) (user : User) (target : Reference) :
    Outcome × List StoreEvent :=
  if user.bot.isSome then
    (.failure .isBot, [])
  else
    match db.can_acquire_server user with
    | .error e => (.failure e, [.canAcquireServer user.id])
    | .ok _ =>
      match (target.as_invite db).1 with
      | .error e => (.failure e, [.canAcquireServer user.id, .asInvite target.id])
      | .ok invite =>
        let step := join_invite db user invite
        (step.1, .canAcquireServer user.id :: .asInvite target.id :: step.2)

/-! ## Concrete stores used as test inputs -/

/-- A user map for the concrete scenarios: `u1`, `u2`, `u3` exist. -/
def exUsers : String → Except Error User := fun i =>
  if i = "u1" then .ok { id := "u1", bot := none }
  else if i = "u2" then .ok { id := "u2", bot := none }
  else if i = "u3" then .ok { id := "u3", bot := none }
  else .error .notFound

/-- Concrete store: invite `inv` is a Group invite for channel `g1`
(created by `u2`), channel `g1` is a group with recipients `[u2, u3]`. -/
def exDbGroup : Db where
  can_acquire_server := fun _ => .ok ()
  lookup_invite := fun i =>
    if i = "inv" then .ok (.group "g1" "u2") else .error .notFound
  fetch_server := fun _ => .error .notFound
  member_create := fun _ _ _ => .error .storeUnavailable
  fetch_channel := fun i =>
    if i = "g1" then .ok (.group "g1" ["u2", "u3"]) else .error .notFound
  fetch_user := exUsers

/-- The plain acting user `u1` (not a bot). -/
def exActor : User := { id := "u1", bot := none }

/-- A bot actor. -/
def exBot : User := { id := "b1", bot := some "owner" }

/-- The reference for invite id `inv`. -/
def exRef : Reference := { id := "inv" }

/-- Concrete store in which no invite id resolves (`lookup_invite` always
fails with `NotFound`). -/
def exDbNoInvite : Db where
  can_acquire_server := fun _ => .ok ()
  lookup_invite := fun _ => .error .notFound
  fetch_server := fun _ => .error .notFound
  member_create := fun _ _ _ => .error .storeUnavailable
  fetch_channel := fun _ => .error .notFound
  fetch_user := exUsers

/-- Concrete store identical to `exDbGroup` except that the
server-membership quota check fails. -/
def exDbQuota : Db :=
  { exDbGroup with can_acquire_server := fun _ => .error .quotaExceeded }

/-- Concrete store for the Server scenario of the spec: invite `sinv`
resolves to a Server invite for `s1` created by `u2`; member creation
returns the channels `[c1, c2]`. -/
def exDbServer : Db where
  can_acquire_server := fun _ => .ok ()
  lookup_invite := fun i =>
    if i = "sinv" then .ok (.server "s1" "u2" none) else .error .notFound
  fetch_server := fun i =>
    if i = "s1" then .ok { id := "s1" } else .error .notFound
  member_create := fun _ _ _ => .ok [.nonGroup "c1", .nonGroup "c2"]
  fetch_channel := fun _ => .error .notFound
  fetch_user := exUsers

/-- The reference for the server invite id `sinv`. -/
def exSRef : Reference := { id := "sinv" }

/-- The users list `join` produces for the concrete Group scenario:
views of `u2`, `u3` and of the actor `u1` itself, all scoped to `u1`. -/
def exGroupUsers : List RelativeUserView :=
  [{ userId := "u2", actorId := "u1" },
   { userId := "u3", actorId := "u1" },
   { userId := "u1", actorId := "u1" }]

/-- Concrete store identical to `exDbGroup` except that fetching user
`u3` fails with `StoreUnavailable`, so the batched recipient fetch of the
Group pipeline fails. -/
def exDbGroupFetchFail : Db :=
  { exDbGroup with
    fetch_user := fun i =>
      if i = "u2" then .ok { id := "u2", bot := none }
      else .error .storeUnavailable }

/-! ## C2: bot actors are rejected before any store call -/

/-- C2: for every actor whose `bot` attribute is set, `join` returns the
`IsBot` error and its trace contains no write call (indeed no store call
at all), regardless of the store's answers and of which invite is being
redeemed. -/
theorem join_bot_rejected_before_any_store_call (db : Db) (user : User)
    (target : Reference) (h : user.bot.isSome = true) :
    (join db user target).1 = .failure .isBot ∧
    (join db user target).2.filter StoreEvent.isWrite = [] := by
  simp [join, h]

/-- Witness for C2: the bot `b1` redeeming the group invite `inv` is
rejected with `IsBot` and zero store writes. -/
theorem join_bot_rejected_witness :
    (join exDbGroup exBot exRef).1 = .failure .isBot ∧
    (join exDbGroup exBot exRef).2.filter StoreEvent.isWrite = [] :=
  join_bot_rejected_before_any_store_call exDbGroup exBot exRef rfl

/-! ## C3: policy checks run before resolution, not after -/

/-- Counterexample to C3 as stated: the bot `b1` redeems a non-existent
invite id; resolution would fail with `NotFound`, yet the surfaced error
is the policy error `IsBot` — and the trace shows resolution was never
attempted.  So the Reference Resolver does not run before the Admission
Policy checks. -/
theorem policy_error_preempts_resolution_counterexample :
    exDbNoInvite.lookup_invite exRef.id = .error .notFound ∧
    (join exDbNoInvite exBot exRef).1 = .failure .isBot ∧
    (join exDbNoInvite exBot exRef).2 = [] ∧
    Error.isBot ≠ Error.notFound :=
  ⟨rfl, rfl, rfl, by decide⟩

/-- C3 (amended): in every request the Admission Policy checks are
evaluated before the Reference Resolver resolves the id — whenever a
resolution call appears in the trace at all, the actor was not a bot, the
quota check had already been called and passed, and the trace begins with
the quota check followed by the resolution call.  Consequently, for a bot
actor the policy error `IsBot` surfaces and no resolution call is issued
(whatever the resolution would have returned, e.g. `NotFound` for a
non-existent id), and likewise for an over-quota actor the policy error
`QuotaExceeded` surfaces and no resolution call is issued. -/
theorem policy_checked_before_resolution (db : Db) (user : User)
    (target : Reference) :
    (StoreEvent.asInvite target.id ∈ (join db user target).2 →
      user.bot.isSome = false ∧
      db.can_acquire_server user = .ok () ∧
      ∃ l, (join db user target).2 =
        .canAcquireServer user.id :: .asInvite target.id :: l) ∧
    (user.bot.isSome = true →
      (join db user target).1 = .failure .isBot ∧
      StoreEvent.asInvite target.id ∉ (join db user target).2) ∧
    (user.bot.isSome = false →
      db.can_acquire_server user = .error .quotaExceeded →
      (join db user target).1 = .failure .quotaExceeded ∧
      StoreEvent.asInvite target.id ∉ (join db user target).2) := by
  refine ⟨?_, ?_, ?_⟩
  · intro hmem
    cases hb : user.bot.isSome with
    | true => simp [join, hb] at hmem
    | false =>
      cases hq : db.can_acquire_server user with
      | error e => simp [join, hb, hq] at hmem
      | ok u =>
        cases u
        refine ⟨rfl, rfl, ?_⟩
        cases hinv : db.lookup_invite target.id with
        | error e =>
          exact ⟨[], by simp [join, Reference.as_invite, hb, hq, hinv]⟩
        | ok invite =>
          exact ⟨(join_invite db user invite).2,
            by simp [join, Reference.as_invite, hb, hq, hinv]⟩
  · intro hb
    simp [join, hb]
  · intro hb hq
    simp [join, hb, hq]

/-- Witness for the amended C3: the bot `b1` on a store with no invites
is rejected with `IsBot` and no resolution call; the over-quota `u1` is
rejected with `QuotaExceeded` and no resolution call; and in a request
that does resolve (`u1` on the Group store), the trace begins with the
quota check followed by the resolution call. -/
theorem policy_checked_before_resolution_witness :
    ((join exDbNoInvite exBot exRef).1 = .failure .isBot ∧
      StoreEvent.asInvite exRef.id ∉ (join exDbNoInvite exBot exRef).2) ∧
    ((join exDbQuota exActor exRef).1 = .failure .quotaExceeded ∧
      StoreEvent.asInvite exRef.id ∉ (join exDbQuota exActor exRef).2) ∧
    (exActor.bot.isSome = false ∧
      exDbGroup.can_acquire_server exActor = .ok () ∧
      ∃ l, (join exDbGroup exActor exRef).2 =
        .canAcquireServer "u1" :: .asInvite "inv" :: l) :=
  ⟨(policy_checked_before_resolution exDbNoInvite exBot exRef).2.1 rfl,
   (policy_checked_before_resolution exDbQuota exActor exRef).2.2 rfl rfl,
   (policy_checked_before_resolution exDbGroup exActor exRef).1 (by decide)⟩

/-! ## C4: the quota check runs before the variant dispatch, uniformly -/

/-- C4: for every non-bot actor, the first store call of any request is
the server-membership quota check — before the invite is even resolved,
hence uniformly for both variants — and if that check fails with
`QuotaExceeded` then `join` returns exactly that error with no further
store call (no admission step runs). -/
theorem quota_check_first_and_uniform (db : Db) (user : User)
    (target : Reference) (hbot : user.bot.isSome = false) :
    (join db user target).2.head? = some (.canAcquireServer user.id) ∧
    (db.can_acquire_server user = .error .quotaExceeded →
      join db user target = (.failure .quotaExceeded, [.canAcquireServer user.id])) := by
  constructor
  · simp only [join, hbot, Bool.false_eq_true, if_false]
    cases h : db.can_acquire_server user with
    | error e => simp
    | ok _ =>
      cases h2 : (target.as_invite db).1 with
      | error e => simp
      | ok invite => simp
  · intro hq
    simp [join, hbot, hq]

/-- Witness for C4: the non-bot actor `u1`, over quota, redeeming the
Group invite `inv`: the quota error surfaces even for a Group invite and
the only store call is the quota check. -/
theorem quota_check_witness :
    join exDbQuota exActor exRef =
      (.failure .quotaExceeded, [.canAcquireServer "u1"]) :=
  (quota_check_first_and_uniform exDbQuota exActor exRef rfl).2 rfl

/-! ## C9: resolution is idempotent and has no side effects -/

/-- C9: `Reference::as_invite` leaves the store unchanged, and resolving
the same reference twice in a row (no mutation in between) yields
structurally equal results. -/
theorem as_invite_idempotent_and_side_effect_free (db : Db) (r : Reference) :
    (r.as_invite db).2 = db ∧
    (r.as_invite ((r.as_invite db).2)).1 = (r.as_invite db).1 :=
  ⟨rfl, rfl⟩

/-! ## C8: the `unreachable!()` branch is never taken -/

/-- If `add_user_to_group` succeeds, the resulting channel is a group
channel (the mutation never changes the channel's kind, and it fails on
non-group channels). -/
theorem add_user_to_group_ok_group (c : Channel) (user : User) (cr : String)
    (ch : Channel) (h : c.add_user_to_group user cr = .ok ch) :
    ∃ cid rs, ch = .group cid rs := by
  cases c with
  | group cid recipients =>
    by_cases hmem : user.id ∈ recipients
    · simp [Channel.add_user_to_group, hmem] at h
    · simp [Channel.add_user_to_group, hmem] at h
      exact ⟨cid, recipients ++ [user.id], h.symm⟩
  | nonGroup cid => simp [Channel.add_user_to_group] at h

/-- C8: `join` never ends in the `unreachable!()` branch of the group
pipeline, for every store, actor and reference: whenever the group
mutation succeeds, the channel in hand is still a group channel, so the
non-group arm after `add_user_to_group` is dead. -/
theorem join_never_panics (db : Db) (user : User) (target : Reference) :
    ((join db user target).1).isPanicked = false := by
  by_cases hb : user.bot.isSome = true
  · simp [join, hb, Outcome.isPanicked]
  · cases hq : db.can_acquire_server user with
    | error e => simp [join, hb, hq, Outcome.isPanicked]
    | ok u =>
      cases hinv : db.lookup_invite target.id with
      | error e => simp [join, Reference.as_invite, hb, hq, hinv, Outcome.isPanicked]
      | ok invite =>
        cases invite with
        | server sid c cid =>
          cases hs : db.fetch_server sid with
          | error e =>
            simp [join, join_invite, Reference.as_invite, hb, hq, hinv, hs,
              Outcome.isPanicked]
          | ok srv =>
            cases hm : db.member_create srv user none with
            | error e =>
              simp [join, join_invite, Reference.as_invite, hb, hq, hinv, hs, hm,
                Outcome.isPanicked]
            | ok chans =>
              simp [join, join_invite, Reference.as_invite, hb, hq, hinv, hs, hm,
                Outcome.isPanicked]
        | group gcid creator =>
          cases hch : db.fetch_channel gcid with
          | error e =>
            simp [join, join_invite, Reference.as_invite, hb, hq, hinv, hch,
              Outcome.isPanicked]
          | ok ch0 =>
            cases ha : ch0.add_user_to_group user creator with
            | error e =>
              simp [join, join_invite, Reference.as_invite, hb, hq, hinv, hch, ha,
                Outcome.isPanicked]
            | ok ch1 =>
              obtain ⟨cid2, rs, rfl⟩ := add_user_to_group_ok_group ch0 user creator ch1 ha
              cases hfu : db.fetch_users rs with
              | error e =>
                simp [join, join_invite, Reference.as_invite, hb, hq, hinv, hch, ha,
                  hfu, Outcome.isPanicked]
              | ok us =>
                simp [join, join_invite, Reference.as_invite, hb, hq, hinv, hch, ha,
                  hfu, Outcome.isPanicked]

/-! ## C5: the Server response carries the fetched server and the
channels `createMember` returned, unmodified -/

/-- C5: on the successful Server-invite path — actor not a bot, quota
check passes, the reference resolves to a Server invite, the server is
fetched, and member creation returns a channel list — the response is the
Server variant carrying exactly that fetched server and exactly that
channel list, unmodified. -/
theorem server_join_returns_create_member_channels (db : Db) (user : User)
    (target : Reference) (sid c : String) (cid : Option String)
    (srv : Server) (chans : List Channel)
    (hbot : user.bot.isSome = false)
    (hq : db.can_acquire_server user = .ok ())
    (hinv : db.lookup_invite target.id = .ok (.server sid c cid))
    (hsrv : db.fetch_server sid = .ok srv)
    (hmem : db.member_create srv user none = .ok chans) :
    (join db user target).1 = .success (.server chans srv) := by
  simp [join, join_invite, Reference.as_invite, hbot, hq, hinv, hsrv, hmem]

/-- Witness for C5: the spec's concrete scenario — `u1` redeems the
Server invite for `s1`; `createMember` returns `[c1, c2]`; the response
is `{ server: s1, channels: [c1, c2] }`. -/
theorem server_join_witness :
    (join exDbServer exActor exSRef).1 =
      .success (.server [.nonGroup "c1", .nonGroup "c2"] { id := "s1" }) :=
  server_join_returns_create_member_channels exDbServer exActor exSRef
    "s1" "u2" none { id := "s1" } [.nonGroup "c1", .nonGroup "c2"]
    rfl rfl rfl rfl rfl

/-! ## C10: member creation always passes no default channel -/

/-- Every `createMember` call issued by the variant dispatch carries
`none` as its default-channel argument. -/
theorem join_invite_createMember_none (db : Db) (user : User) (invite : Invite)
    (sid uid : String) (ch : Option String)
    (h : StoreEvent.createMember sid uid ch ∈ (join_invite db user invite).2) :
    ch = none := by
  cases invite with
  | server s c cid =>
    cases hs : db.fetch_server s with
    | error e => simp [join_invite, hs] at h
    | ok srv =>
      cases hm : db.member_create srv user none with
      | error e =>
        simp [join_invite, hs, hm] at h
        exact h.2.2
      | ok chans =>
        simp [join_invite, hs, hm] at h
        exact h.2.2
  | group gcid creator =>
    cases hch : db.fetch_channel gcid with
    | error e => simp [join_invite, hch] at h
    | ok ch0 =>
      cases ha : ch0.add_user_to_group user creator with
      | error e => simp [join_invite, hch, ha] at h
      | ok ch1 =>
        obtain ⟨cid2, rs, rfl⟩ := add_user_to_group_ok_group ch0 user creator ch1 ha
        cases hfu : db.fetch_users rs with
        | error e => simp [join_invite, hch, ha, hfu] at h
        | ok us => simp [join_invite, hch, ha, hfu] at h

/-- C10: the variant dispatch ignores the Server invite's optional
`channelId` field entirely (two invites differing only in that field
produce identical results and traces), and every `createMember` call
issued by `join` carries `none` as its default-channel argument. -/
theorem member_create_default_channel_none :
    (∀ (db : Db) (user : User) (sid c : String) (ch1 ch2 : Option String),
      join_invite db user (.server sid c ch1) =
        join_invite db user (.server sid c ch2)) ∧
    (∀ (db : Db) (user : User) (target : Reference) (sid uid : String)
      (ch : Option String),
      StoreEvent.createMember sid uid ch ∈ (join db user target).2 → ch = none) := by
  constructor
  · intro db user sid c ch1 ch2
    rfl
  · intro db user target sid uid ch h
    by_cases hb : user.bot.isSome = true
    · simp [join, hb] at h
    · cases hq : db.can_acquire_server user with
      | error e => simp [join, hb, hq] at h
      | ok u =>
        cases hinv : db.lookup_invite target.id with
        | error e => simp [join, Reference.as_invite, hb, hq, hinv] at h
        | ok invite =>
          simp [join, Reference.as_invite, hb, hq, hinv] at h
          exact join_invite_createMember_none db user invite sid uid ch h

/-- Witness for C10: in the concrete Server scenario a `createMember`
call does occur, and its default-channel argument is `none`. -/
theorem member_create_default_channel_none_witness :
    StoreEvent.createMember "s1" "u1" (none : Option String) ∈
      (join exDbServer exActor exSRef).2 ∧
    (none : Option String) = none :=
  ⟨by decide,
   member_create_default_channel_none.2 exDbServer exActor exSRef
     "s1" "u1" none (by decide)⟩

/-! ## Inversion of the successful Group path -/

/-- Inversion: a successful Group response can only arise from the full
Group pipeline — the reference resolved to a Group invite, the fetched
channel was a group whose recipients did not yet contain the actor, the
response channel is that group with the actor appended, and the users are
exactly the fetched post-mutation recipients, each projected relative to
the actor, in order. -/
theorem join_group_success_inversion (db : Db) (user : User) (target : Reference)
    (users : List RelativeUserView) (ch : Channel)
    (h : (join db user target).1 = .success (.group users ch)) :
    ∃ gcid creator cid2 rs us,
      db.lookup_invite target.id = .ok (.group gcid creator) ∧
      db.fetch_channel gcid = .ok (.group cid2 rs) ∧
      user.id ∉ rs ∧
      ch = .group cid2 (rs ++ [user.id]) ∧
      db.fetch_users (rs ++ [user.id]) = .ok us ∧
      users = us.map (fun u => u.into_known user) := by
  by_cases hb : user.bot.isSome = true
  · simp [join, hb] at h
  · cases hq : db.can_acquire_server user with
    | error e => simp [join, hb, hq] at h
    | ok u =>
      cases hinv : db.lookup_invite target.id with
      | error e => simp [join, Reference.as_invite, hb, hq, hinv] at h
      | ok invite =>
        cases invite with
        | server sid c cid =>
          cases hs : db.fetch_server sid with
          | error e =>
            simp [join, join_invite, Reference.as_invite, hb, hq, hinv, hs] at h
          | ok srv =>
            cases hm : db.member_create srv user none with
            | error e =>
              simp [join, join_invite, Reference.as_invite, hb, hq, hinv, hs, hm] at h
            | ok chans =>
              simp [join, join_invite, Reference.as_invite, hb, hq, hinv, hs, hm] at h
        | group gcid creator =>
          cases hch : db.fetch_channel gcid with
          | error e =>
            simp [join, join_invite, Reference.as_invite, hb, hq, hinv, hch] at h
          | ok ch0 =>
            cases ch0 with
            | nonGroup i =>
              simp [join, join_invite, Reference.as_invite,
                Channel.add_user_to_group, hb, hq, hinv, hch] at h
            | group cid2 rs =>
              by_cases hmem : user.id ∈ rs
              · simp [join, join_invite, Reference.as_invite,
                  Channel.add_user_to_group, hb, hq, hinv, hch, hmem] at h
              · cases hfu : db.fetch_users (rs ++ [user.id]) with
                | error e =>
                  simp [join, join_invite, Reference.as_invite,
                    Channel.add_user_to_group, hb, hq, hinv, hch, hmem, hfu] at h
                | ok us =>
                  simp [join, join_invite, Reference.as_invite,
                    Channel.add_user_to_group, hb, hq, hinv, hch, hmem, hfu] at h
                  exact ⟨gcid, creator, cid2, rs, us, rfl, hch, hmem,
                    h.2.symm, hfu, h.1.symm⟩

/-- When the batched fetch succeeds and the store is well-formed (each
fetched user carries the id it was fetched by), the fetched users' ids
are exactly the requested ids, in order. -/
theorem fetch_users_ok_ids (db : Db)
    (hwf : ∀ i u, db.fetch_user i = .ok u → u.id = i) :
    ∀ ids us, db.fetch_users ids = .ok us →
      us.map (fun u => u.id) = ids := by
  intro ids
  induction ids with
  | nil =>
    intro us h
    simp [Db.fetch_users] at h
    simp [← h]
  | cons i rest ih =>
    intro us h
    cases hu : db.fetch_user i with
    | error e => simp [Db.fetch_users, hu] at h
    | ok u =>
      cases hr : db.fetch_users rest with
      | error e => simp [Db.fetch_users, hu, hr] at h
      | ok us0 =>
        simp [Db.fetch_users, hu, hr] at h
        simp [← h, hwf i u hu, ih us0 hr]

/-! ## C1: the Group response covers all post-mutation recipients,
actor included -/

/-- Counterexample to C1 as stated: the non-bot actor `u1` redeems the
Group invite for channel `g1` with recipients `[u2, u3]`.  The admission
succeeds, the post-mutation recipient list is `[u2, u3, u1]`, and the
returned `users` list contains a view of the acting user itself and has
the full list's length 3, not length 2 (the list minus the actor): the
handler fetches and projects every recipient without excluding the
actor. -/
theorem group_users_include_actor_counterexample :
    (join exDbGroup exActor exRef).1 =
      .success (.group exGroupUsers (.group "g1" ["u2", "u3", "u1"])) ∧
    ({ userId := "u1", actorId := "u1" } : RelativeUserView) ∈ exGroupUsers ∧
    exGroupUsers.length ≠ (["u2", "u3", "u1"] : List String).length - 1 :=
  ⟨rfl, by decide, by decide⟩

/-- The concrete user map is well-formed: each fetched user carries the
id it was fetched by. -/
theorem exUsers_wf : ∀ i u, exUsers i = .ok u → u.id = i := by
  intro i u h
  simp only [exUsers] at h
  split_ifs at h with h1 h2 h3 <;> simp_all <;> subst h <;> rfl

/-- C1 (amended): for every successful Group-invite admission against a
well-formed store, the returned `users` list has the same length AND
order as the channel's full post-mutation recipient list — projected to
user ids it IS that recipient list, so each recipient corresponds
one-to-one and in order to a returned view — the acting user is NOT
excluded: the actor's own view is among the returned users — and every
returned view is scoped to the actor. -/
theorem group_users_cover_all_recipients (db : Db) (user : User)
    (target : Reference) (users : List RelativeUserView) (ch : Channel)
    (hwf : ∀ i u, db.fetch_user i = .ok u → u.id = i)
    (h : (join db user target).1 = .success (.group users ch)) :
    ∃ cid rs, ch = .group cid rs ∧
      users.length = rs.length ∧
      users.map (fun v => v.userId) = rs ∧
      ({ userId := user.id, actorId := user.id } : RelativeUserView) ∈ users ∧
      ∀ v ∈ users, v.actorId = user.id := by
  obtain ⟨gcid, creator, cid2, rs0, us, hinv, hch, hmem, hches, hfu, husers⟩ :=
    join_group_success_inversion db user target users ch h
  have hids := fetch_users_ok_ids db hwf (rs0 ++ [user.id]) us hfu
  refine ⟨cid2, rs0 ++ [user.id], hches, ?_, ?_, ?_, ?_⟩
  · rw [husers, List.length_map, ← hids, List.length_map]
  · rw [husers, List.map_map]
    simpa [Function.comp, User.into_known] using hids
  · have hu : user.id ∈ us.map (fun u => u.id) := by
      rw [hids]; simp
    obtain ⟨u0, hu0mem, hu0id⟩ := List.mem_map.mp hu
    rw [husers]
    exact List.mem_map.mpr ⟨u0, hu0mem, by simp [User.into_known, hu0id]⟩
  · intro v hv
    rw [husers] at hv
    obtain ⟨u0, _, rfl⟩ := List.mem_map.mp hv
    rfl

/-- Witness for the amended C1, at the concrete Group scenario: the
response channel is the group `g1` with recipients `[u2, u3, u1]`, the
users list has length 3 and projects to exactly `[u2, u3, u1]` in order,
includes the actor's own view, and every view is scoped to `u1`. -/
theorem group_users_cover_all_recipients_witness :
    ∃ cid rs, (Channel.group "g1" ["u2", "u3", "u1"] : Channel) = .group cid rs ∧
      exGroupUsers.length = rs.length ∧
      exGroupUsers.map (fun v => v.userId) = rs ∧
      ({ userId := "u1", actorId := "u1" } : RelativeUserView) ∈ exGroupUsers ∧
      ∀ v ∈ exGroupUsers, v.actorId = "u1" :=
  group_users_cover_all_recipients exDbGroup exActor exRef exGroupUsers
    (.group "g1" ["u2", "u3", "u1"]) exUsers_wf rfl

/-! ## C7: the users list order matches the read-back recipient order -/

/-- C7: for every successful Group-invite admission against a well-formed
store, the returned `users` list, projected to user ids, is exactly the
channel's post-mutation recipient list — same elements in the same
(stable) order, determined by the recipient list as read back after the
mutation and not by any completion order of the per-user projections. -/
theorem group_users_order_matches_recipients (db : Db) (user : User)
    (target : Reference) (users : List RelativeUserView) (ch : Channel)
    (hwf : ∀ i u, db.fetch_user i = .ok u → u.id = i)
    (h : (join db user target).1 = .success (.group users ch)) :
    ∃ cid rs, ch = .group cid rs ∧
      users.map (fun v => v.userId) = rs := by
  obtain ⟨gcid, creator, cid2, rs0, us, hinv, hch, hmem, hches, hfu, husers⟩ :=
    join_group_success_inversion db user target users ch h
  have hids := fetch_users_ok_ids db hwf (rs0 ++ [user.id]) us hfu
  refine ⟨cid2, rs0 ++ [user.id], hches, ?_⟩
  rw [husers, List.map_map]
  simpa [Function.comp, User.into_known] using hids

/-- Witness for C7, at the concrete Group scenario: the returned views'
user ids read `[u2, u3, u1]`, the recipient list as read back. -/
theorem group_users_order_witness :
    ∃ cid rs, (Channel.group "g1" ["u2", "u3", "u1"] : Channel) = .group cid rs ∧
      exGroupUsers.map (fun v => v.userId) = rs :=
  group_users_order_matches_recipients exDbGroup exActor exRef exGroupUsers
    (.group "g1" ["u2", "u3", "u1"]) exUsers_wf rfl

/-! ## C6: the first failing step aborts the pipeline with its error
untouched -/

/-- C6: for a non-bot actor past the quota check, whichever pipeline step
fails first — invite resolution, server fetch, member creation, channel
fetch, the group mutation, or the recipient fetch — `join` returns that
step's error unchanged, and the trace stops at the failing call: no
subsequent step executes and no partial user list is ever returned
(in every failing case the outcome is `failure e`, with no response). -/
theorem join_first_error_aborts (db : Db) (user : User) (target : Reference)
    (e : Error) (hbot : user.bot.isSome = false)
    (hq : db.can_acquire_server user = .ok ()) :
    (db.lookup_invite target.id = .error e →
      join db user target =
        (.failure e, [.canAcquireServer user.id, .asInvite target.id])) ∧
    (∀ sid c cid, db.lookup_invite target.id = .ok (.server sid c cid) →
      db.fetch_server sid = .error e →
      join db user target =
        (.failure e, [.canAcquireServer user.id, .asInvite target.id,
          .fetchServer sid])) ∧
    (∀ sid c cid srv, db.lookup_invite target.id = .ok (.server sid c cid) →
      db.fetch_server sid = .ok srv →
      db.member_create srv user none = .error e →
      join db user target =
        (.failure e, [.canAcquireServer user.id, .asInvite target.id,
          .fetchServer sid, .createMember sid user.id none])) ∧
    (∀ gcid creator, db.lookup_invite target.id = .ok (.group gcid creator) →
      db.fetch_channel gcid = .error e →
      join db user target =
        (.failure e, [.canAcquireServer user.id, .asInvite target.id,
          .fetchChannel gcid])) ∧
    (∀ gcid creator ch0, db.lookup_invite target.id = .ok (.group gcid creator) →
      db.fetch_channel gcid = .ok ch0 →
      ch0.add_user_to_group user creator = .error e →
      join db user target =
        (.failure e, [.canAcquireServer user.id, .asInvite target.id,
          .fetchChannel gcid, .addUserToGroup gcid user.id creator])) ∧
    (∀ gcid creator cid2 rs, db.lookup_invite target.id = .ok (.group gcid creator) →
      db.fetch_channel gcid = .ok (.group cid2 rs) →
      user.id ∉ rs →
      db.fetch_users (rs ++ [user.id]) = .error e →
      join db user target =
        (.failure e, [.canAcquireServer user.id, .asInvite target.id,
          .fetchChannel gcid, .addUserToGroup gcid user.id creator,
          .fetchUsers (rs ++ [user.id])])) := by
  refine ⟨?_, ?_, ?_, ?_, ?_, ?_⟩
  · intro hinv
    simp [join, Reference.as_invite, hbot, hq, hinv]
  · intro sid c cid hinv hs
    simp [join, join_invite, Reference.as_invite, hbot, hq, hinv, hs]
  · intro sid c cid srv hinv hs hm
    simp [join, join_invite, Reference.as_invite, hbot, hq, hinv, hs, hm]
  · intro gcid creator hinv hch
    simp [join, join_invite, Reference.as_invite, hbot, hq, hinv, hch]
  · intro gcid creator ch0 hinv hch ha
    simp [join, join_invite, Reference.as_invite, hbot, hq, hinv, hch, ha]
  · intro gcid creator cid2 rs hinv hch hmem hfu
    simp [join, join_invite, Reference.as_invite, Channel.add_user_to_group,
      hbot, hq, hinv, hch, hmem, hfu]

/-- Witness for C6: in the Group scenario with a failing recipient fetch,
the whole request fails with the fetch's own error `StoreUnavailable` —
no partial user list — and the trace ends at the recipient fetch. -/
theorem join_first_error_aborts_witness :
    join exDbGroupFetchFail exActor exRef =
      (.failure .storeUnavailable,
       [.canAcquireServer "u1", .asInvite "inv", .fetchChannel "g1",
        .addUserToGroup "g1" "u1" "u2", .fetchUsers ["u2", "u3", "u1"]]) :=
  (join_first_error_aborts exDbGroupFetchFail exActor exRef .storeUnavailable
      rfl rfl).2.2.2.2.2 "g1" "u2" "g1" ["u2", "u3"] rfl rfl (by decide) rfl
